import Mathlib

/-!
Verification development for the `sim_race_pro` repository
(`sim_race_pro_script.py`, `telemetry_sources.py`).

The Python source is shallowly embedded: pure helper functions become Lean
functions; the per-cycle mutable state of `SimRaceLogic._loop` becomes an
explicit `LogicState` record threaded through step functions; the UDP readers
become functions from byte lists (one `Nat` per byte, each in `[0,255]`) to
updated cache records.  Python `float` values produced by `struct.unpack` and
by decimal-literal parsing are represented as exact rationals (`ℚ`); IEEE-754
binary32 payloads are decoded bit-exactly to their rational value, with the
two non-finite cases mapped so that the orderings used by the source are
preserved (±inf becomes ±2^200, NaN becomes 0, which reproduces the fact that
every `<`/`>` comparison against a NaN is false in Python).
External side effects (prints, vgamepad/keyboard injection, sleeps, actual
serial/socket I/O) are elided; every state field the source mutates is kept.
-/

namespace SimRacePro

/-! ### Byte-buffer primitives (model of `struct.unpack_from` on `bytes`) -/

/-- One byte of a datagram, read with a default of 0; callers guard bounds
exactly where the Python source does. -/
def u8At (buf : List Nat) (off : Nat) : Nat := buf.getD off 0

/-- Little-endian unsigned 16-bit read (`struct` format `<H`). -/
def u16At (buf : List Nat) (off : Nat) : Nat :=
  u8At buf off + 256 * u8At buf (off + 1)

/-- Signed 8-bit read (`struct` format `<b`). -/
def s8At (buf : List Nat) (off : Nat) : Int :=
  let v := u8At buf off
  if 128 ≤ v then (v : Int) - 256 else (v : Int)

/-- Little-endian unsigned 32-bit read. -/
def le32At (buf : List Nat) (off : Nat) : Nat :=
  u8At buf off + 256 * u8At buf (off + 1) + 65536 * u8At buf (off + 2) +
    16777216 * u8At buf (off + 3)

/-- Exact rational value of an IEEE-754 binary32 bit pattern.  Infinities map
to ±2^200 and NaN to 0 so that all order comparisons performed by the source
(`< -0.5`, `> 0.5`, `> 0.02`, ...) give the same answers as Python float
comparisons do on those values. -/
def bitsToF32Rat (bits : Nat) : ℚ :=
  let sign : Nat := bits / 2 ^ 31 % 2
  let e : Nat := bits / 2 ^ 23 % 256
  let frac : Nat := bits % 2 ^ 23
  if e = 255 ∧ frac ≠ 0 then 0
  else
    let mag : ℚ :=
      if e = 255 then (2 : ℚ) ^ (200 : ℕ)
      else if e = 0 then (frac : ℚ) * (2 : ℚ) ^ (-(149 : ℤ))
      else ((2 ^ 23 + frac : ℕ) : ℚ) * (2 : ℚ) ^ ((e : ℤ) - 150)
    if sign = 1 then -mag else mag

/-- Little-endian `f32` read (`struct` format `<f`) as an exact rational. -/
def f32At (buf : List Nat) (off : Nat) : ℚ := bitsToF32Rat (le32At buf off)

/-! ### `clamp` (module-level helper of `sim_race_pro_script.py`) -/

/-- `clamp(v, lo, hi)` from the source, at integer type. -/
def clampI (v lo hi : Int) : Int := if v < lo then lo else if hi < v then hi else v

/-- `clamp(v, lo, hi)` from the source, at rational (Python float) type. -/
def clampQ (v lo hi : ℚ) : ℚ := if v < lo then lo else if hi < v then hi else v

/-! ### Gear grid classifier (`SimRaceLogic._gear_from_gx_gy`) and its
calibration constants (`GEAR_Y_MAP`, `INVERT_GX`, `X_*`). -/

def gearYUpMax : Int := 125
def gearYDownMin : Int := 140
def invertGx : Bool := true
def xRightMax : Int := 104
def xCenterMin : Int := 110
def xCenterMax : Int := 132
def xLeftMin : Int := 138

/-- Direct transcription of `SimRaceLogic._gear_from_gx_gy`.  The row and
column labels are the strings the source uses.  Note the final mapping only
distinguishes `row == "up"` from everything else, so a `"mid"` row with a
non-`"mid"` column falls into the down-gear arm. -/
def gearFromGxGy (gx gy : Int) : Int :=
  let row : String :=
    if gy ≤ gearYUpMax then "up" else if gearYDownMin ≤ gy then "down" else "mid"
  let col : String :=
    if invertGx then
      if gx ≤ xRightMax then "right"
      else if xCenterMin ≤ gx ∧ gx ≤ xCenterMax then "center"
      else if xLeftMin ≤ gx then "left"
      else "mid"
    else
      if xLeftMin ≤ gx then "left"
      else if xCenterMin ≤ gx ∧ gx ≤ xCenterMax then "center"
      else if gx ≤ xRightMax then "right"
      else "mid"
  if col = "left" then (if row = "up" then 1 else 2)
  else if col = "center" then (if row = "up" then 3 else 4)
  else if col = "right" then (if row = "up" then 5 else 6)
  else 0

/-! ### Bridge-loop state (`SimRaceLogic` mutable fields plus the local loop
variables `consecutive_errors` and `reconnect_delay` of `_loop`).  The
`gamepadPresent`/`kbAvailable` fields stand for `self.gamepad is not None`
and the import-time `_KB_AVAILABLE` flag; `serOpen` stands for
`self.ser is not None`. -/

structure LogicState where
  serOpen : Bool
  connectionStatus : Bool
  connectionState : String
  consecutiveErrors : Nat
  reconnectDelay : ℚ
  lastAngle : ℚ
  lastThrottle : Int
  lastBrake : Int
  lastPressedBtnIdx : Int
  lastGearIdx : Int
  lastHbBit : Int
  testButtons : List Int
  testGx : Int
  testGy : Int
  testHandbrake : Int
  testFfbActive : Bool
  testFfbValue : Int
  manualGearEnabled : Bool
  gamepadPresent : Bool
  kbAvailable : Bool
deriving DecidableEq

/-- The field values `SimRaceLogic.__init__` and `_reset_inputs` establish
(with a gamepad successfully created and the keyboard module importable). -/
def initState : LogicState where
  serOpen := false
  connectionStatus := false
  connectionState := "disconnected"
  consecutiveErrors := 0
  reconnectDelay := 0
  lastAngle := 0
  lastThrottle := 0
  lastBrake := 0
  lastPressedBtnIdx := -1
  lastGearIdx := 0
  lastHbBit := 0
  testButtons := List.replicate 16 0
  testGx := 127
  testGy := 127
  testHandbrake := 0
  testFfbActive := false
  testFfbValue := 0
  manualGearEnabled := false
  gamepadPresent := true
  kbAvailable := true

/-! ### Line codec: the inbound controller-line parse of `_loop`.

The source matches each stripped line against
`re.compile(r'^\s*([+-]?\d+(?:\.\d+)?)\-(\d+)\-(\d+)\-(.*)\s*$')` and then
splits group 4 on `-`, converting pieces with `int(...)`.  The regex is
deterministic on the newline-free strings `readline`+`strip` can produce, so
it is transcribed below as a direct parser returning the four groups. -/

/-- Python's `\s` class (ASCII range): space, tab, newline, carriage return,
vertical tab, form feed. -/
def isPySpace (c : Char) : Bool :=
  c = ' ' ∨ c = '\t' ∨ c = '\n' ∨ c = '\r' ∨ c.toNat = 11 ∨ c.toNat = 12

/-- Value of a nonempty decimal digit string. -/
def decNat (ds : List Char) : Nat :=
  ds.foldl (fun a c => 10 * a + (c.toNat - 48)) 0

/-- Python-style `split('-')` on character lists (structurally recursive, so
it evaluates inside `decide`; Lean's own `String.splitOn` is defined by
well-founded recursion and does not). -/
def splitDash (cs : List Char) : List (List Char) :=
  match cs with
  | [] => [[]]
  | c :: r =>
    if c = '-' then [] :: splitDash r
    else
      match splitDash r with
      | [] => [[c]]
      | p :: ps => (c :: p) :: ps

/-- Python `int(s)` restricted to optional surrounding whitespace, an optional
sign and a nonempty run of ASCII digits; `none` models the `ValueError` the
source catches with its blanket `except`. -/
def pyInt (s : String) : Option Int :=
  let cs := (((s.toList.dropWhile isPySpace).reverse).dropWhile isPySpace).reverse
  match cs with
  | [] => none
  | c :: rest =>
    let (neg, ds) :=
      if c = '-' then (true, rest)
      else if c = '+' then (false, rest)
      else (false, c :: rest)
    if ds ≠ [] ∧ ds.all Char.isDigit then
      some ((if neg then -1 else 1) * (decNat ds : Int))
    else none

/-- The (sign, integer part, fraction digits value, fraction digit count) of
a decimal literal of the shape the regex group 1 guarantees
(`[+-]?\d+(\.\d+)?`). -/
def pyFloatParts (s : String) : Bool × Nat × Nat × Nat :=
  let cs := s.toList
  let (neg, cs1) :=
    match cs with
    | '-' :: r => (true, r)
    | '+' :: r => (false, r)
    | _ => (false, cs)
  let ip := cs1.takeWhile Char.isDigit
  let rest := cs1.dropWhile Char.isDigit
  let fp :=
    match rest with
    | '.' :: r => r.takeWhile Char.isDigit
    | _ => []
  (neg, decNat ip, decNat fp, fp.length)

/-- Python `float(s)` on strings of the shape the regex group 1 guarantees,
as an exact rational.  (CPython rounds the decimal to the nearest binary64;
every value this development evaluates it on is exactly representable, so
the exact rational is faithful.) -/
def pyFloatQ (s : String) : ℚ :=
  let p := pyFloatParts s
  (if p.1 then -1 else 1) * ((p.2.1 : ℚ) + (p.2.2.1 : ℚ) / 10 ^ p.2.2.2)

/-- The anchored regex match: returns the four captured groups, or `none`
when the line does not match (the source's `if m:` fails). -/
def lineMatch (s : String) : Option (String × String × String × String) :=
  let cs0 := s.toList.dropWhile isPySpace
  let (sgn, cs1) :=
    match cs0 with
    | c :: r => if c = '+' ∨ c = '-' then ([c], r) else (([] : List Char), cs0)
    | [] => (([] : List Char), cs0)
  let d1 := cs1.takeWhile Char.isDigit
  let r1 := cs1.dropWhile Char.isDigit
  if d1.isEmpty then none
  else
    let (fr, r2) :=
      match r1 with
      | '.' :: r =>
        let d2 := r.takeWhile Char.isDigit
        if d2.isEmpty then (([] : List Char), r1)
        else ('.' :: d2, r.dropWhile Char.isDigit)
      | _ => (([] : List Char), r1)
    match r2 with
    | '-' :: r3 =>
      let d3 := r3.takeWhile Char.isDigit
      let r4 := r3.dropWhile Char.isDigit
      if d3.isEmpty then none
      else
        match r4 with
        | '-' :: r5 =>
          let d4 := r5.takeWhile Char.isDigit
          let r6 := r5.dropWhile Char.isDigit
          if d4.isEmpty then none
          else
            match r6 with
            | '-' :: r7 =>
              some (String.mk (sgn ++ d1 ++ fr), String.mk d3, String.mk d4,
                String.mk r7)
            | _ => none
        | _ => none
    | _ => none

/-- Result of the group-4 tail parse: fewer than two `-`-separated parts is
the "shifter-less" frame; otherwise the shifter pair, handbrake bit and
button list, with `none` modelling an `int(...)` `ValueError` anywhere. -/
inductive TailParse where
  | shifterless : TailParse
  | full (gx gy hb : Int) (btns : List Int) : TailParse
deriving DecidableEq

/-- Transcription of the tail handling in `_loop`:
`tparts = m.group(4).split('-')`, `gx, gy = int(tparts[-2]), int(tparts[-1])`,
`mid = tparts[:-2]`, `hb = int(mid[-1]) if mid else 0`,
`btns = [int(x) for x in mid[:-1]] if len(mid) > 1 else []`. -/
def parseTail (g4 : String) : Option TailParse :=
  let tparts := (splitDash g4.toList).map String.mk
  if 2 ≤ tparts.length then
    match pyInt (tparts.getD (tparts.length - 2) ""),
        pyInt (tparts.getD (tparts.length - 1) "") with
    | some gx, some gy =>
      let mid := tparts.dropLast.dropLast
      let hbOpt :=
        match mid.getLast? with
        | none => some (0 : Int)
        | some lastPart => pyInt lastPart
      match hbOpt with
      | none => none
      | some hb =>
        match (if 1 < mid.length then mid.dropLast.mapM pyInt else some []) with
        | none => none
        | some btns => some (.full gx gy hb btns)
    | _, _ => none
  else some .shifterless

/-- `self.test_buttons[i] = s` for each `i, s` in `enumerate(btns)` with
`i < len(self.test_buttons)`: overwrite a prefix, keep the tail. -/
def overwritePrefix : List Int → List Int → List Int
  | tb, [] => tb
  | [], _ => []
  | _ :: tb, b :: bs => b :: overwritePrefix tb bs

/-- Final value of `self.last_pressed_btn_idx` after the gamepad button loop:
the last index whose state is 1, starting from the -1 reset. -/
def lastPressedIdx (btns : List Int) : Int :=
  btns.enum.foldl (fun acc p => if p.2 = 1 then (p.1 : Int) else acc) (-1)

/-- The parse stage of `_loop` (steps "if not line" through the gear
emulation) applied to one decoded-and-stripped line.  Keyboard and gamepad
injections are external effects; every mutation of `self` is kept. -/
def processLine (st : LogicState) (line : String) : LogicState :=
  if line = "" then { st with consecutiveErrors := st.consecutiveErrors + 1 }
  else
    let st1 := { st with lastPressedBtnIdx := -1 }
    match lineMatch line with
    | none => st1
    | some (g1, g2, g3, g4) =>
      let st2 :=
        if st1.connectionStatus then st1
        else { st1 with connectionStatus := true, connectionState := "connected" }
      let st3 := { st2 with
        consecutiveErrors := 0
        lastAngle := pyFloatQ g1
        lastThrottle := clampI ((pyInt g2).getD 0) 0 255
        lastBrake := clampI ((pyInt g3).getD 0) 0 255 }
      match parseTail g4 with
      | none => st3
      | some .shifterless => st3
      | some (.full gx gy hb btns) =>
        let st4 := { st3 with
          testGx := clampI gx 0 255
          testGy := clampI gy 0 255
          testHandbrake := hb
          testButtons := overwritePrefix st3.testButtons btns }
        let st5 :=
          if st4.gamepadPresent then
            { st4 with lastPressedBtnIdx := lastPressedIdx btns }
          else st4
        let st6 := { st5 with lastHbBit := hb }
        if st6.manualGearEnabled && st6.kbAvailable then
          let g := gearFromGxGy (clampI gx 0 255) (clampI gy 0 255)
          if g ≠ st6.lastGearIdx then { st6 with lastGearIdx := g } else st6
        else st6

/-- `max_errors` in `_loop`. -/
def maxErrors : Nat := 5

/-- `SimRaceLogic.close_serial` followed by `_reset_inputs`. -/
def closeSerial (st : LogicState) : LogicState :=
  { st with
    connectionStatus := false
    connectionState := "disconnected"
    serOpen := false
    lastThrottle := 0
    lastBrake := 0
    lastAngle := 0
    lastPressedBtnIdx := -1
    testButtons := List.replicate 16 0
    testGx := 127
    testGy := 127
    testHandbrake := 0 }

/-- Outcome of one bounded serial read in `_loop` step 2: `readline` returned
nothing (timeout), a `SerialException`/`OSError` was raised, some other
exception was raised, or a line arrived (given here already decoded and
stripped — a whitespace-only raw line becomes `data ""`). -/
inductive ReadEvent where
  | timeoutEmpty : ReadEvent
  | serialError : ReadEvent
  | genericError : ReadEvent
  | data (line : String) : ReadEvent

/-- One iteration of `_loop` steps 2–3 while the port is open: the
consecutive-failure bookkeeping, the disconnect-and-cooldown paths, and the
line parse. -/
def readStep (st : LogicState) (ev : ReadEvent) : LogicState :=
  match ev with
  | .timeoutEmpty =>
    let st := { st with consecutiveErrors := st.consecutiveErrors + 1 }
    if maxErrors ≤ st.consecutiveErrors then
      { closeSerial st with reconnectDelay := 3 }
    else st
  | .serialError => { closeSerial st with reconnectDelay := 2 }
  | .genericError =>
    let st := { st with consecutiveErrors := st.consecutiveErrors + 1 }
    if maxErrors ≤ st.consecutiveErrors then
      { closeSerial st with reconnectDelay := 3 }
    else st
  | .data line => processLine st line

/-- Decimal digits of a natural number, fuel-based so it evaluates inside
`decide`. -/
def natDigitsAux : Nat → Nat → List Char → List Char
  | 0, _, acc => acc
  | fuel + 1, n, acc =>
    let d := Char.ofNat (48 + n % 10)
    if n < 10 then d :: acc else natDigitsAux fuel (n / 10) (d :: acc)

/-- Python `str(n)` for a natural number. -/
def pyStrNat (n : Nat) : String := String.mk (natDigitsAux (n + 1) n [])

/-- Python `str(v)` for an integer (as used by f-string interpolation). -/
def pyStrInt (v : Int) : String :=
  match v with
  | .ofNat n => pyStrNat n
  | .negSucc n => "-" ++ pyStrNat (n + 1)

/-- The no-telemetry-frame branch of `_loop` step 4: the test-FFB override
replaces the rumble byte, otherwise the fixed neutral line is emitted. -/
def composeNoFrame (st : LogicState) : String :=
  if st.testFfbActive then
    "0;N;0;127;" ++ pyStrInt st.testFfbValue ++ ";0\n"
  else "0;N;0;127;0;0\n"

/-! ### Unified telemetry frame (`TelemetryFrame` dataclass of
`telemetry_sources.py`). -/

structure TelemetryFrame where
  game : String
  speedKmh : ℚ
  gear : Int
  throttle : ℚ
  brake : ℚ
  steer : Option ℚ
  rpm : Option Int
  gLat : Option ℚ
  gLon : Option ℚ
  gVert : Option ℚ
  onCurb : Option Bool
  curbSide : Option String
  rumble : ℚ
deriving DecidableEq

/-! ### F1 UDP reader (`F1TelemetryReader`).

Header format `<HBBBBBQfIIBB` is 29 bytes; `packetId` is the single byte at
offset 6 and `playerCarIndex` the byte at offset 27.  `CAR_MOTION`
(`<ffffffhhhhhhffffff`) and `CAR_TELEM` (`<HfffBbHBBH4H4B4BH4f4B`) are both
60 bytes.  Within a motion record, `g_lat`/`g_lon`/`g_vert` and
`yaw`/`pitch`/`roll` are the f32s at record offsets 36..56.  Within a
telemetry record: speed u16 at 0, throttle/steer/brake f32 at 2/6/10, gear s8
at 15, rpm u16 at 16, the four surface-type bytes at 56..59. -/

def hdrSize : Nat := 29
def packetIdMotion : Nat := 0
def packetIdTelem : Nat := 6
def carMotionSize : Nat := 60
def carTelemSize : Nat := 60

/-- `self._last_motion` — the dict is always updated with all six keys at
once, so it is either absent or a full record. -/
structure F1Motion where
  gLat : ℚ
  gLon : ℚ
  gVert : ℚ
  yaw : ℚ
  pitch : ℚ
  roll : ℚ
deriving DecidableEq

/-- `self._last_telem` — likewise always updated with all eight keys. -/
structure F1Telem where
  speedKmh : ℚ
  throttle : ℚ
  steer : ℚ
  brake : ℚ
  gear : Int
  rpm : Nat
  onCurb : Bool
  curbSide : Option String
deriving DecidableEq

structure F1State where
  lastMotion : Option F1Motion
  lastTelem : Option F1Telem
  formatDetected : Bool
deriving DecidableEq

/-- Processing of one received datagram inside the `read_frame` poll loop of
`F1TelemetryReader`: the `len(buf) < self.HDR.size` guard, the header parse
(which cannot raise once the length guard passed), and the two packet-type
branches with their `start + size <= len(buf)` bounds guards. -/
def f1ProcessDatagram (st : F1State) (buf : List Nat) : F1State :=
  if buf.length < hdrSize then st
  else
    let st := { st with formatDetected := true }
    let packetId := u8At buf 6
    let playerIdx := u8At buf 27
    if packetId = packetIdMotion then
      let start := hdrSize + playerIdx * carMotionSize
      if start + carMotionSize ≤ buf.length then
        { st with lastMotion := some {
            gLat := f32At buf (start + 36)
            gLon := f32At buf (start + 40)
            gVert := f32At buf (start + 44)
            yaw := f32At buf (start + 48)
            pitch := f32At buf (start + 52)
            roll := f32At buf (start + 56) } }
      else st
    else if packetId = packetIdTelem then
      let start := hdrSize + playerIdx * carTelemSize
      if start + carTelemSize ≤ buf.length then
        let surfaces := [u8At buf (start + 56), u8At buf (start + 57),
          u8At buf (start + 58), u8At buf (start + 59)]
        let curbSide : Option String :=
          match st.lastMotion with
          | none => none
          | some m =>
            some (if m.gLat < -(1 / 2 : ℚ) then "left"
              else if (1 / 2 : ℚ) < m.gLat then "right" else "center")
        { st with lastTelem := some {
            speedKmh := (u16At buf start : ℚ)
            throttle := f32At buf (start + 2)
            steer := f32At buf (start + 6)
            brake := f32At buf (start + 10)
            gear := s8At buf (start + 15)
            rpm := u16At buf (start + 16)
            onCurb := surfaces.any (fun s => s = 1)
            curbSide := curbSide } }
      else st
    else st

/-- The frame `F1TelemetryReader.read_frame` returns after its poll loop:
`None` until a telemetry packet has been cached, else the unified frame built
from the two caches.  (The `'year'` key is never stored, so the game label is
always the literal fallback.) -/
def f1BuildFrame (st : F1State) : Option TelemetryFrame :=
  match st.lastTelem with
  | none => none
  | some t =>
    some {
      game := "F1 20xx"
      speedKmh := t.speedKmh
      gear := t.gear
      throttle := t.throttle
      brake := t.brake
      steer := some t.steer
      rpm := some (t.rpm : Int)
      gLat := st.lastMotion.map F1Motion.gLat
      gLon := st.lastMotion.map F1Motion.gLon
      gVert := st.lastMotion.map F1Motion.gVert
      onCurb := some t.onCurb
      curbSide := t.curbSide
      rumble := 0 }

/-! ### ACC shared-memory reader (`ACCTelemetryReader`).

The vendor physics block is modelled as the record of fields the reader
accesses through `getattr`; `g_force` may be absent (`None`), in which case
the axes default to 0.  The float literals 0.02, 0.05, 0.5, 0.2, 0.8 are
written as the rationals they denote. -/

structure AccGForce where
  x : ℚ
  y : ℚ
  z : ℚ
deriving DecidableEq

structure AccPhysics where
  gForce : Option AccGForce
  kerbVibration : ℚ
  slipVibration : ℚ
  gVibration : ℚ
  absVibration : ℚ
  gear : Int
  speedKmh : ℚ
  gas : ℚ
  brakeInput : ℚ
  rpms : Int
deriving DecidableEq

/-- `ACCTelemetryReader.read_frame` given the snapshot's physics block (or
`None` when the block is absent — the brief anti-busy-wait sleep is a pure
timing effect and is elided). -/
def accReadFrame (phys : Option AccPhysics) : Option TelemetryFrame :=
  match phys with
  | none => none
  | some phy =>
    let gLat := match phy.gForce with | some g => g.x | none => 0
    let gLon := match phy.gForce with | some g => g.y | none => 0
    let gVert := match phy.gForce with | some g => g.z | none => 0
    let onCurb0 : Bool := (1 / 50 : ℚ) < phy.kerbVibration
    let fixedGear := phy.gear - 1
    let totalRumble := phy.kerbVibration * 1 + phy.slipVibration * (1 / 2) +
      phy.gVibration * (1 / 5) + phy.absVibration * (4 / 5)
    let onCurb : Bool := if (1 / 20 : ℚ) < phy.kerbVibration then true else onCurb0
    some {
      game := "Assetto Corsa Competizione"
      speedKmh := phy.speedKmh
      gear := fixedGear
      throttle := phy.gas
      brake := phy.brakeInput
      steer := none
      rpm := some phy.rpms
      gLat := some gLat
      gLon := some gLon
      gVert := some gVert
      onCurb := some onCurb
      curbSide := none
      rumble := totalRumble }

/-! ### Forza UDP reader (`ForzaTelemetryReader`).

The poll loop keeps only the most recent datagram of length ≥ 311 received
within the budget.  Frame construction then performs fixed-offset
`struct.unpack_from` reads on that datagram; the `Option`-valued readers
below return `none` exactly when `unpack_from` would raise (offset + size
exceeding the buffer), so a `some` result means no unpack error. -/

/-- `struct.unpack_from('<B', buf, off)` with its bounds check. -/
def readU8 (buf : List Nat) (off : Nat) : Option Nat :=
  if off + 1 ≤ buf.length then some (u8At buf off) else none

/-- `struct.unpack_from('<b', buf, off)` with its bounds check. -/
def readS8 (buf : List Nat) (off : Nat) : Option Int :=
  if off + 1 ≤ buf.length then some (s8At buf off) else none

/-- `struct.unpack_from('<i', buf, off)` with its bounds check. -/
def readI32 (buf : List Nat) (off : Nat) : Option Int :=
  if off + 4 ≤ buf.length then
    some (let v := le32At buf off
      if 2 ^ 31 ≤ v then (v : Int) - 2 ^ 32 else (v : Int))
  else none

/-- `struct.unpack_from('<f', buf, off)` with its bounds check. -/
def readF32 (buf : List Nat) (off : Nat) : Option ℚ :=
  if off + 4 ≤ buf.length then some (f32At buf off) else none

/-- The datagram-retention rule of the Forza poll loop: every received
datagram is inspected in order and `last_data` keeps the latest one with
`len(buf) >= 311`. -/
def forzaRetain (bufs : List (List Nat)) : Option (List Nat) :=
  bufs.foldl (fun acc b => if 311 ≤ b.length then some b else acc) none

/-- All values `ForzaTelemetryReader.read_frame` computes from the retained
datagram, short of the final frame assembly.  (The assembly itself is pure
total arithmetic on these values — speed is the velocity magnitude × 3.6, a
square root no unpack can fail in — so the only failure mode of frame
construction is an unpack error inside this extraction.) -/
structure ForzaRaw where
  rpm : ℚ
  vx : ℚ
  vy : ℚ
  vz : ℚ
  gx : ℚ
  gy : ℚ
  gz : ℚ
  gear : Int
  accelIn : ℚ
  brakeIn : ℚ
  steerIn : ℚ
  rumbleFl : Int
  rumbleFr : Int
  rumbleRl : Int
  rumbleRr : Int
  onCurb : Bool
  rumbleIntensity : ℚ
deriving DecidableEq

/-- The fixed-offset extraction of `ForzaTelemetryReader.read_frame`, in
source order: f32 reads at 16, 32/36/40, 20/24/28, the `len > 300` branch
with u8 reads at 307/303/304 and the s8 read at 308 (including the gear
remap 0→−1, 11→0, else verbatim and the /255, /127 input scaling), the four
i32 wheel-rumble reads at 116..128, and the two surface-rumble f32 reads at
148/152 with the max/10 scaling clamped into [0,1].  `9.8` is the exact
rational 49/5 the literal denotes. -/
def forzaExtract (buf : List Nat) : Option ForzaRaw := do
  let rpm ← readF32 buf 16
  let vx ← readF32 buf 32
  let vy ← readF32 buf 36
  let vz ← readF32 buf 40
  let gx0 ← readF32 buf 20
  let gy0 ← readF32 buf 24
  let gz0 ← readF32 buf 28
  let (gear, accelIn, brakeIn, steerIn) ←
    if 300 < buf.length then do
      let gearRaw ← readU8 buf 307
      let gear : Int := if gearRaw = 0 then -1 else if gearRaw = 11 then 0
        else (gearRaw : Int)
      let a ← readU8 buf 303
      let b ← readU8 buf 304
      let s ← readS8 buf 308
      pure (gear, (a : ℚ) / 255, (b : ℚ) / 255, (s : ℚ) / 127)
    else pure ((0 : Int), (0 : ℚ), (0 : ℚ), (0 : ℚ))
  let rFl ← readI32 buf 116
  let rFr ← readI32 buf 120
  let rRl ← readI32 buf 124
  let rRr ← readI32 buf 128
  let surfFl ← readF32 buf 148
  let surfFr ← readF32 buf 152
  let intensity := min (max (max surfFl surfFr / 10) 0) 1
  pure {
    rpm := rpm, vx := vx, vy := vy, vz := vz
    gx := gx0 / (49 / 5), gy := gy0 / (49 / 5), gz := gz0 / (49 / 5)
    gear := gear, accelIn := accelIn, brakeIn := brakeIn, steerIn := steerIn
    rumbleFl := rFl, rumbleFr := rFr, rumbleRl := rRl, rumbleRr := rRr
    onCurb := 0 < rFl + rFr + rRl + rRr
    rumbleIntensity := intensity }

/-! ### Spec-side grammar (for stating C3).

This definition follows the spec's wording of the controller-line grammar
(§4.1/§6), not the code:
`<angle:float>-<throttle:int>-<brake:int>[-<btn:0|1>...]-<handbrake:0|1>-<gx:int>-<gy:int>`
with a signed optional-decimal angle and integer fields. -/

/-- An optionally signed nonempty decimal integer literal. -/
def isIntLit (s : String) : Bool :=
  match s.toList with
  | [] => false
  | c :: cs =>
    let ds := if c = '+' ∨ c = '-' then cs else c :: cs
    !ds.isEmpty && ds.all Char.isDigit

/-- The spec's controller-line grammar as a decidable predicate: a float
angle, then `-`-joined integer fields consisting of throttle, brake, zero or
more 0/1 button states, a 0/1 handbrake bit, and the two shifter axes. -/
def specWireGrammar (s : String) : Bool :=
  let cs := s.toList
  let cs1 :=
    match cs with
    | c :: r => if c = '+' ∨ c = '-' then r else cs
    | [] => cs
  let d1 := cs1.takeWhile Char.isDigit
  let r1 := cs1.dropWhile Char.isDigit
  if d1.isEmpty then false
  else
    let r2 :=
      match r1 with
      | '.' :: r =>
        if (r.takeWhile Char.isDigit).isEmpty then r1 else r.dropWhile Char.isDigit
      | _ => r1
    match r2 with
    | '-' :: rest =>
      let fields := (splitDash rest).map String.mk
      5 ≤ fields.length && fields.all isIntLit &&
        ((fields.drop 2).dropLast.dropLast).all (fun f => f = "0" || f = "1")
    | _ => false

/-! ### Claims about the gear classifier -/

set_option maxHeartbeats 1600000 in
/-- Claim C9: for every pair of integer inputs, `_gear_from_gx_gy` terminates
and returns a value in {0, 1, 2, 3, 4, 5, 6}.  The embedding is a total pure
Lean function of exactly its two arguments, which also witnesses that the
classifier reads and writes no other state. -/
theorem gear_classifier_range (gx gy : Int) :
    gearFromGxGy gx gy = 0 ∨ gearFromGxGy gx gy = 1 ∨ gearFromGxGy gx gy = 2 ∨
      gearFromGxGy gx gy = 3 ∨ gearFromGxGy gx gy = 4 ∨
      gearFromGxGy gx gy = 5 ∨ gearFromGxGy gx gy = 6 := by
  simp only [gearFromGxGy]
  split_ifs <;> simp

/-- Claim C1 (code bug): the spec's gear lookup table sends any combination
with a "neutral"/"mid" row to gear 0, and its example classifies
(gx, gy) = (127, 127) as 0; the code instead returns 4 there, because the
final grid mapping only distinguishes `row == "up"` and lumps the `"mid"`
row in with `"down"` — contradicting the function's own
"3 Rows (Up, Mid, Down)" comment and the 127-is-center calibration of the
test-panel fields. -/
theorem gear_classifier_neutral_row_bug : gearFromGxGy 127 127 = 4 := by decide

/-! ### Claims about the no-frame feedback line -/

/-- Claim C2, counterexample: with the test-FFB override active at value 128
(the GUI slider's initial value), the no-frame response is
`"0;N;0;127;128;0\n"`, not the documented neutral line, refuting "for every
internal state of the bridge (including any test-mode FFB override state)". -/
theorem noframe_line_override_cex :
    composeNoFrame { initState with testFfbActive := true, testFfbValue := 128 } =
        "0;N;0;127;128;0\n" ∧
      composeNoFrame { initState with testFfbActive := true, testFfbValue := 128 } ≠
        "0;N;0;127;0;0\n" := by
  constructor
  · decide
  · decide

/-- Claim C2, amended: whenever no telemetry frame is available and the
test-mode FFB override is inactive, the composed feedback line is exactly the
neutral line `"0;N;0;127;0;0\n"`, for every other internal state of the
bridge. -/
theorem noframe_line_neutral (st : LogicState) (h : st.testFfbActive = false) :
    composeNoFrame st = "0;N;0;127;0;0\n" := by
  simp [composeNoFrame, h]

/-- Witness for `noframe_line_neutral` at the initial state. -/
theorem noframe_line_neutral_witness : composeNoFrame initState = "0;N;0;127;0;0\n" :=
  noframe_line_neutral initState rfl

/-! ### Claims about malformed-line handling -/

/-- A state with a remembered pressed-button index, used to exhibit the C3
counterexample. -/
def c3State : LogicState := { initState with lastPressedBtnIdx := 2 }

/-- Claim C3, counterexample: the line `"1-2-3-x-y"` does not match the
controller-line grammar (its tail fields are not integers), yet processing it
changes state: the angle/throttle/brake assignments happen before the tail
`int(...)` conversions raise, and `last_pressed_btn_idx` is reset to -1
before the pattern is even consulted. -/
theorem malformed_line_state_change_cex :
    specWireGrammar "1-2-3-x-y" = false ∧
      (processLine c3State "1-2-3-x-y").lastAngle = 1 ∧ c3State.lastAngle = 0 ∧
      (processLine c3State "1-2-3-x-y").lastThrottle = 2 ∧ c3State.lastThrottle = 0 ∧
      (processLine c3State "1-2-3-x-y").lastPressedBtnIdx = -1 ∧
      c3State.lastPressedBtnIdx = 2 := by
  have hv : pyFloatQ "1" = 1 := by
    rw [pyFloatQ, show pyFloatParts "1" = (false, 1, 0, 0) from by decide]
    norm_num
  have ha : (processLine c3State "1-2-3-x-y").lastAngle = pyFloatQ "1" := rfl
  exact ⟨by decide, ha.trans hv, rfl, by decide, by decide, by decide, by decide⟩

/-- Claim C3, amended: for every non-empty line that fails the top-level line
pattern (the compiled regex), the decode step discards the line and leaves
every state field unchanged except `last_pressed_btn_idx`, which is
unconditionally reset to -1 for UI feedback before matching; a line that
matches the pattern but whose tail fields fail integer conversion may
additionally update angle, throttle, brake and the connection flags before
the conversion error aborts the rest. -/
theorem unmatched_line_no_update (st : LogicState) (line : String)
    (hne : line ≠ "") (hm : lineMatch line = none) :
    processLine st line = { st with lastPressedBtnIdx := -1 } := by
  simp [processLine, hne, hm]

/-- Witness for `unmatched_line_no_update` on the line `"hello"`. -/
theorem unmatched_line_no_update_witness :
    processLine c3State "hello" = { c3State with lastPressedBtnIdx := -1 } :=
  unmatched_line_no_update c3State "hello" (by decide) (by decide)

/-! ### Claim about the documented example line -/

/-- Claim C4: decoding `"-45.5-200-10-1-0-0-0-100-127"` succeeds with
angle = −45.5, throttle = 200, brake = 10, buttons [1,0,0], handbrake 0,
shifter (100, 127): the regex groups, the tail parse, and the resulting
state updates all agree with the spec's example. -/
theorem decode_example_line :
    lineMatch "-45.5-200-10-1-0-0-0-100-127" =
        some ("-45.5", "200", "10", "1-0-0-0-100-127") ∧
      pyFloatQ "-45.5" = -(91 / 2 : ℚ) ∧
      parseTail "1-0-0-0-100-127" = some (.full 100 127 0 [1, 0, 0]) ∧
      (processLine initState "-45.5-200-10-1-0-0-0-100-127").lastAngle = -(91 / 2 : ℚ) ∧
      (processLine initState "-45.5-200-10-1-0-0-0-100-127").lastThrottle = 200 ∧
      (processLine initState "-45.5-200-10-1-0-0-0-100-127").lastBrake = 10 ∧
      (processLine initState "-45.5-200-10-1-0-0-0-100-127").testButtons =
        [1, 0, 0] ++ List.replicate 13 0 ∧
      (processLine initState "-45.5-200-10-1-0-0-0-100-127").testHandbrake = 0 ∧
      (processLine initState "-45.5-200-10-1-0-0-0-100-127").testGx = 100 ∧
      (processLine initState "-45.5-200-10-1-0-0-0-100-127").testGy = 127 := by
  have hv : pyFloatQ "-45.5" = -(91 / 2 : ℚ) := by
    rw [pyFloatQ, show pyFloatParts "-45.5" = (true, 45, 5, 1) from by decide]
    norm_num
  have ha : (processLine initState "-45.5-200-10-1-0-0-0-100-127").lastAngle =
      pyFloatQ "-45.5" := rfl
  exact ⟨by decide, hv, by decide, ha.trans hv, by decide, by decide, by decide,
    by decide, by decide, by decide⟩

/-! ### Claims about the connection manager -/

/-- A connecting state one failure short of the threshold, used for C7. -/
def c7State : LogicState :=
  { initState with
    serOpen := true
    connectionState := "connecting"
    consecutiveErrors := 4 }

/-- Claim C7, counterexample: a whitespace-only raw line (stripped to the
empty string) raises the consecutive-failure counter to the threshold 5, but
the disconnect check only runs on the empty-`readline` path, so the manager
stays in Connecting with no cooldown scheduled. -/
theorem threshold_without_disconnect_cex :
    (readStep c7State (.data "")).consecutiveErrors = maxErrors ∧
      (readStep c7State (.data "")).connectionState = "connecting" ∧
      (readStep c7State (.data "")).reconnectDelay = 0 := by decide

/-- Claim C7, amended: starting from the Connecting or Connected state, when
an empty serial read raises the consecutive-failure counter to the threshold
(5), the manager transitions to Disconnected and schedules a strictly
positive (3-second) reconnect cooldown; empty-after-strip lines increment the
same counter but never trigger the disconnect themselves. -/
theorem empty_read_threshold_disconnects (st : LogicState)
    (_hs : st.connectionState = "connecting" ∨ st.connectionState = "connected")
    (hc : maxErrors ≤ st.consecutiveErrors + 1) :
    (readStep st .timeoutEmpty).connectionState = "disconnected" ∧
      0 < (readStep st .timeoutEmpty).reconnectDelay := by
  simp only [readStep]
  rw [if_pos hc]
  refine ⟨rfl, by norm_num⟩

/-- Witness for `empty_read_threshold_disconnects` at the concrete state one
failure short of the threshold. -/
theorem empty_read_threshold_disconnects_witness :
    (readStep c7State .timeoutEmpty).connectionState = "disconnected" ∧
      0 < (readStep c7State .timeoutEmpty).reconnectDelay :=
  empty_read_threshold_disconnects c7State (Or.inl rfl) (by decide)

/-! ### Claims about the F1 UDP reader -/

/-- Claim C5: a datagram shorter than the 29-byte header, or whose computed
per-car offset (header size + player index × record size) plus the record
size exceeds the datagram length, is discarded without raising (the step
function is total and every read is behind the source's explicit bounds
guard) and without mutating the cached motion or telemetry state.  Both
record sizes are 60 bytes, so one bound covers both packet types. -/
theorem f1_bad_datagram_no_cache_change (st : F1State) (buf : List Nat)
    (h : buf.length < hdrSize ∨
      buf.length < hdrSize + u8At buf 27 * carTelemSize + carTelemSize) :
    (f1ProcessDatagram st buf).lastMotion = st.lastMotion ∧
      (f1ProcessDatagram st buf).lastTelem = st.lastTelem := by
  by_cases hl : buf.length < hdrSize
  · simp [f1ProcessDatagram, hl]
  · have hb : buf.length < hdrSize + u8At buf 27 * carTelemSize + carTelemSize := by
      rcases h with h | h
      · exact absurd h hl
      · exact h
    have hgm : ¬ (hdrSize + u8At buf 27 * carMotionSize + carMotionSize ≤
        buf.length) := by
      simp only [carMotionSize, carTelemSize] at *
      omega
    have hgt : ¬ (hdrSize + u8At buf 27 * carTelemSize + carTelemSize ≤
        buf.length) := by
      simp only [carMotionSize, carTelemSize] at *
      omega
    simp [f1ProcessDatagram, hl, hgm, hgt]

/-- An empty reader-cache state, for the C5 witness. -/
def f1State0 : F1State :=
  { lastMotion := none, lastTelem := none, formatDetected := false }

/-- Witness for `f1_bad_datagram_no_cache_change` on the empty datagram. -/
theorem f1_bad_datagram_no_cache_change_witness :
    (f1ProcessDatagram f1State0 []).lastMotion = f1State0.lastMotion ∧
      (f1ProcessDatagram f1State0 []).lastTelem = f1State0.lastTelem :=
  f1_bad_datagram_no_cache_change f1State0 [] (Or.inl (by decide))

/-- Claim C6: for a telemetry packet whose record is in bounds, the raw gear
(signed byte at record offset 15) and rpm (u16 at offset 16) pass through
unchanged into the unified frame, and — the lateral g-force `m.gLat` being
cached — the frame's curb side is "left" iff it is < −0.5, "right" iff it is
> 0.5, and "center" otherwise. -/
theorem f1_telem_gear_rpm_curbside (st : F1State) (m : F1Motion) (buf : List Nat)
    (hm : st.lastMotion = some m)
    (hid : u8At buf 6 = packetIdTelem)
    (hb : hdrSize + u8At buf 27 * carTelemSize + carTelemSize ≤ buf.length) :
    ∃ f, f1BuildFrame (f1ProcessDatagram st buf) = some f ∧
      f.gear = s8At buf (hdrSize + u8At buf 27 * carTelemSize + 15) ∧
      f.rpm = some ((u16At buf (hdrSize + u8At buf 27 * carTelemSize + 16) : Int)) ∧
      (f.curbSide = some "left" ↔ m.gLat < -(1 / 2 : ℚ)) ∧
      (f.curbSide = some "right" ↔ (1 / 2 : ℚ) < m.gLat) ∧
      (f.curbSide = some "center" ↔
        ¬ m.gLat < -(1 / 2 : ℚ) ∧ ¬ (1 / 2 : ℚ) < m.gLat) := by
  have hl : ¬ buf.length < hdrSize := by
    simp only [hdrSize, carTelemSize] at *
    omega
  have hnm : u8At buf 6 ≠ packetIdMotion := by
    rw [hid]
    decide
  simp only [f1ProcessDatagram, if_neg hl, hid, hnm, if_false, if_pos hb, hm]
  simp only [f1BuildFrame, packetIdTelem, packetIdMotion, reduceIte, hm]
  refine ⟨_, rfl, rfl, rfl, ?_, ?_, ?_⟩ <;>
    · constructor
      · intro hcs
        split_ifs at hcs <;> simp_all
      · intro hg
        split_ifs <;> simp_all <;> linarith

/-- A cached motion record at rest, for the C6 witness. -/
def f1MotionW : F1Motion :=
  { gLat := 0, gLon := 0, gVert := 0, yaw := 0, pitch := 0, roll := 0 }

/-- Reader state with the motion cache populated, for the C6 witness. -/
def f1StateW : F1State :=
  { lastMotion := some f1MotionW, lastTelem := none, formatDetected := false }

/-- An 89-byte all-zero datagram marked as packet id 6 (telemetry) with
player index 0, so the single car record 29..88 is exactly in bounds. -/
def f1BufW : List Nat := (List.replicate 89 0).set 6 6

/-- Witness for `f1_telem_gear_rpm_curbside` on the concrete zero telemetry
datagram and an at-rest cached motion record. -/
theorem f1_telem_gear_rpm_curbside_witness :
    ∃ f, f1BuildFrame (f1ProcessDatagram f1StateW f1BufW) = some f ∧
      f.gear = s8At f1BufW (hdrSize + u8At f1BufW 27 * carTelemSize + 15) ∧
      f.rpm = some ((u16At f1BufW (hdrSize + u8At f1BufW 27 * carTelemSize + 16) : Int)) ∧
      (f.curbSide = some "left" ↔ f1MotionW.gLat < -(1 / 2 : ℚ)) ∧
      (f.curbSide = some "right" ↔ (1 / 2 : ℚ) < f1MotionW.gLat) ∧
      (f.curbSide = some "center" ↔
        ¬ f1MotionW.gLat < -(1 / 2 : ℚ) ∧ ¬ (1 / 2 : ℚ) < f1MotionW.gLat) :=
  f1_telem_gear_rpm_curbside f1StateW f1MotionW f1BufW rfl (by decide) (by decide)

/-! ### Claim about the ACC reader's gear remap -/

/-- Claim C8: every frame the ACC shared-memory reader produces carries
`gear = raw gear − 1`, so raw 0 (reverse) maps to −1, raw 1 (neutral) to 0,
and raw 2 (first gear) to 1. -/
theorem acc_gear_minus_one (phy : AccPhysics) (f : TelemetryFrame)
    (h : accReadFrame (some phy) = some f) :
    f.gear = phy.gear - 1 ∧ (phy.gear = 0 → f.gear = -1) ∧
      (phy.gear = 1 → f.gear = 0) ∧ (phy.gear = 2 → f.gear = 1) := by
  simp only [accReadFrame, Option.some.injEq] at h
  subst h
  refine ⟨rfl, ?_, ?_, ?_⟩ <;> intro h0 <;> simp [h0]

/-- A zeroed physics block with the gear lever in reverse (raw 0), for the
C8 witness. -/
def accPhys0 : AccPhysics :=
  { gForce := none, kerbVibration := 0, slipVibration := 0, gVibration := 0,
    absVibration := 0, gear := 0, speedKmh := 0, gas := 0, brakeInput := 0,
    rpms := 0 }

/-- Witness for `acc_gear_minus_one` on the zeroed physics block. -/
theorem acc_gear_minus_one_witness :
    ∃ f, accReadFrame (some accPhys0) = some f ∧ f.gear = accPhys0.gear - 1 :=
  ⟨_, rfl, (acc_gear_minus_one accPhys0 _ rfl).1⟩

/-! ### Claim about the Forza reader's bounds -/

/-- Retention invariant: `forzaRetain` only ever holds datagrams of length at
least 311. -/
theorem forzaRetain_length (bufs : List (List Nat)) :
    ∀ (acc : Option (List Nat)), (∀ b, acc = some b → 311 ≤ b.length) →
      ∀ buf,
        bufs.foldl (fun acc b => if 311 ≤ b.length then some b else acc) acc =
          some buf →
        311 ≤ buf.length := by
  induction bufs with
  | nil =>
    intro acc hacc buf h
    exact hacc buf h
  | cons hd tl ih =>
    intro acc hacc buf h
    simp only [List.foldl_cons] at h
    refine ih _ ?_ buf h
    intro b hb
    by_cases h311 : 311 ≤ hd.length
    · rw [if_pos h311] at hb
      injection hb with hb
      subst hb
      exact h311
    · rw [if_neg h311] at hb
      exact hacc b hb

/-- Claim C10: the Forza poll loop only retains datagrams of length ≥ 311,
and on a retained datagram every fixed-offset unpack the frame construction
performs (4-byte reads ending by offset 156, 1-byte reads ending by offset
309) is in bounds, so the extraction never hits an unpack error
(`forzaExtract` returns `some`). -/
theorem forza_retained_parse_ok (bufs : List (List Nat)) (buf : List Nat)
    (h : forzaRetain bufs = some buf) :
    311 ≤ buf.length ∧ (forzaExtract buf).isSome := by
  simp only [forzaRetain] at h
  have hlen : 311 ≤ buf.length :=
    forzaRetain_length bufs none (by intro b hb; cases hb) buf h
  refine ⟨hlen, ?_⟩
  have hf32 : ∀ off, off + 4 ≤ buf.length → readF32 buf off = some (f32At buf off) :=
    fun off hoff => by rw [readF32, if_pos hoff]
  have hu8 : ∀ off, off + 1 ≤ buf.length → readU8 buf off = some (u8At buf off) :=
    fun off hoff => by rw [readU8, if_pos hoff]
  have hs8 : ∀ off, off + 1 ≤ buf.length → readS8 buf off = some (s8At buf off) :=
    fun off hoff => by rw [readS8, if_pos hoff]
  have hi32 : ∀ off, off + 4 ≤ buf.length →
      readI32 buf off = some (let v := le32At buf off
        if 2 ^ 31 ≤ v then (v : Int) - 2 ^ 32 else (v : Int)) :=
    fun off hoff => by rw [readI32, if_pos hoff]
  have h300 : 300 < buf.length := by omega
  simp only [forzaExtract, hf32 16 (by omega), hf32 32 (by omega),
    hf32 36 (by omega), hf32 40 (by omega), hf32 20 (by omega),
    hf32 24 (by omega), hf32 28 (by omega), if_pos h300, hu8 307 (by omega),
    hu8 303 (by omega), hu8 304 (by omega), hs8 308 (by omega),
    hi32 116 (by omega), hi32 120 (by omega), hi32 124 (by omega),
    hi32 128 (by omega), hf32 148 (by omega), hf32 152 (by omega)]
  simp

set_option maxRecDepth 8000 in
/-- Witness for `forza_retained_parse_ok` on a single zeroed 311-byte
datagram. -/
theorem forza_retained_parse_ok_witness :
    311 ≤ (List.replicate 311 0 : List Nat).length ∧
      (forzaExtract (List.replicate 311 0)).isSome :=
  forza_retained_parse_ok [List.replicate 311 0] (List.replicate 311 0)
    (by decide)

end SimRacePro
